import Mathlib

/-!
Verification of the data-reshaping and comparative-analytics core of the
portfolio dashboard (src/app.py): sheet-key parsing, the two stress-test
loaders, record aggregation and sorting, bucket percentile statistics, the
subject-vs-bucket join, and the treemap size/color pipeline.

Modelling conventions:
* A spreadsheet cell is a `Cell`: a string, a rational number, a value that
  the date parser accepts (`Cell.date d`, carrying the parsed day number),
  or an empty cell.  `pd.to_datetime` is external I/O-adjacent library code;
  it is modelled by its outcome: `Cell.date d` parses to `d`, every other
  cell is unparsable.
* Floats are modelled as rationals; pandas/numpy elementwise arithmetic on a
  numeric column becomes arithmetic on `List Q` (written with the rational
  type below).
* pandas sorts (`sort_values`, `sort_index`) are modelled with
  `List.insertionSort`, a deterministic comparison sort; for the concrete
  inputs appearing below its tie behaviour (input order preserved) agrees
  with the library sort.
* Error objects raised by pandas (`IndexError`, `KeyError`, date parse
  failures) are modelled as `Except.error` carrying the library message,
  which names at most the missing column, never the sheet.
-/

open scoped Lex

namespace PortfolioAnalysis

/-! ### Text helpers -/

/-- Boolean substring test on character lists (Python `pat in s` /
`pandas.Series.str.contains` with a literal pattern). -/
def isSubChars (p : List Char) : List Char → Bool
  | [] => p.isEmpty
  | c :: cs => p.isPrefixOf (c :: cs) || isSubChars p cs

/-- Substring test on strings. -/
def strContains (pat s : String) : Bool := isSubChars pat.toList s.toList

/-- ASCII lowering of a character list (the headers of the workbook are
ASCII, where Python lowercasing and this map agree). -/
def lowerChars (l : List Char) : List Char := l.map Char.toLower

/-- Case-insensitive substring test:
`df.columns.str.contains(pat, case=False, regex=True)` for a pattern with no
regex metacharacters. -/
def containsCI (pat h : String) : Bool :=
  isSubChars (lowerChars pat.toList) (lowerChars h.toList)

/-! ### Compound sheet-key parsing (src/app.py lines 41 and 56) -/

/-- The fixed two-character delimiter of compound sheet keys. -/
def stressDelim : List Char := ['&', '&']

/-- Split a character list at the first occurrence of the delimiter `d`
(Python `s.split(d, 1)` when `d in s`); `none` when the delimiter does not
occur. -/
def splitFirst (d : List Char) : List Char → Option (List Char × List Char)
  | [] => none
  | c :: cs =>
    if d.isPrefixOf (c :: cs) then some ([], (c :: cs).drop d.length)
    else
      match splitFirst d cs with
      | some pq => some (c :: pq.1, pq.2)
      | none => none

/-- Python `sheet.split("&&", 1) if "&&" in sheet else (sheet, sheet)` on
character lists. -/
def parseSheetKeyL (key : List Char) : List Char × List Char :=
  match splitFirst stressDelim key with
  | some pq => pq
  | none => (key, key)

/-- String-level sheet-key parser: portfolio and scenario identifiers. -/
def parseSheetKey (key : String) : String × String :=
  (String.mk (parseSheetKeyL key.toList).1, String.mk (parseSheetKeyL key.toList).2)

/-! ### Raw sheets and cells -/

/-- A raw spreadsheet cell. -/
inductive Cell where
  | str (s : String)
  | num (q : ℚ)
  | date (d : Int)
  | empty
deriving DecidableEq

/-- A raw tabular sheet: a header row and data rows. -/
structure Sheet where
  headers : List String
  rows : List (List Cell)

/-- `pd.to_datetime(x, errors="coerce")`: the coercing date parser, `none`
standing for NaT. -/
def coerceDate : Cell → Option Int
  | .date d => some d
  | _ => none

/-- The message of the pandas `DateParseError` raised by strict
`pd.to_datetime` on an unparsable value; it does not name the sheet. -/
def dateParseError : String := "DateParseError: unparsable date"

/-- Strict `pd.to_datetime(x)`: raises on an unparsable value. -/
def strictParseDate : Cell → Except String Int
  | .date d => .ok d
  | _ => .error dateParseError

/-! ### Detail extraction (src/app.py `load_stress_bystrat`, lines 52-68) -/

/-- First column index whose header contains `pat` case-insensitively:
`df.columns[df.columns.str.contains(pat, case=False, regex=True)][0]`,
except that the empty match is `none` instead of a raised `IndexError`
(the loader below raises it). -/
def findColCI (headers : List String) (pat : String) : Option Nat :=
  headers.findIdx? (fun h => containsCI pat h)

/-- The message of the pandas `IndexError` raised by indexing position 0 of
an empty column selection.  It is one fixed string: it names neither the
sheet nor the missing header pattern. -/
def pandasIndexError : String := "index 0 is out of bounds for axis 0 with size 0"

/-- A normalized by-strategy record, one per raw sheet row:
columns ["Name", "Date", "StressPnL", "Portfolio", "ScenarioName"]. -/
structure DetailRecord where
  name : Cell
  date : Option Int
  stressPnL : Cell
  portfolio : String
  scenarioName : String
deriving DecidableEq

/-- Per-sheet body of `load_stress_bystrat`: split the compound key, take the
name column as column 0, infer the date and value columns by
case-insensitive header match (raising the pandas `IndexError` when no
header matches), coerce dates (unparsable becomes `none`), and tag every row
with the portfolio and scenario identifiers.  No row is dropped. -/
def normalizeDetailSheet (key : String) (s : Sheet) : Except String (List DetailRecord) :=
  match findColCI s.headers "Date" with
  | none => .error pandasIndexError
  | some dateIdx =>
    match findColCI s.headers "Stress PnL" with
    | none => .error pandasIndexError
    | some pnlIdx =>
      .ok (s.rows.map (fun row =>
        { name := row.getD 0 Cell.empty
          date := coerceDate (row.getD dateIdx Cell.empty)
          stressPnL := row.getD pnlIdx Cell.empty
          portfolio := (parseSheetKey key).1
          scenarioName := (parseSheetKey key).2 }))

/-- Sort key of the name cell: the stress workbook's name column holds
strings (spec section 6); pandas compares them lexicographically.  Cells of
other shapes lie outside the modelled workbook format and collapse to the
empty string. -/
def cellKey : Cell → String
  | .str s => s
  | _ => ""

/-- Date sort key: NaT (`none`) sorts last (`na_position="last"`). -/
def dateKey : Option Int → WithTop Int
  | some d => (d : WithTop Int)
  | none => ⊤

/-- The lexicographic sort key of
`sort_values(["Date", "Portfolio", "ScenarioName", "Name"])`. -/
def detailKey (r : DetailRecord) : (WithTop Int) ×ₗ (String ×ₗ (String ×ₗ String)) :=
  toLex (dateKey r.date, toLex (r.portfolio, toLex (r.scenarioName, cellKey r.name)))

/-- Row order of the sorted detail dataset. -/
def detailLe (a b : DetailRecord) : Prop := detailKey a ≤ detailKey b

instance : DecidableRel detailLe :=
  fun a b => inferInstanceAs (Decidable (detailKey a ≤ detailKey b))

instance : IsTotal DetailRecord detailLe :=
  ⟨fun a b => le_total (detailKey a) (detailKey b)⟩

instance : IsTrans DetailRecord detailLe :=
  ⟨fun _ _ _ h1 h2 => le_trans h1 h2⟩

/-- `pd.concat(records, ignore_index=True)` followed by
`sort_values(["Date", "Portfolio", "ScenarioName", "Name"])`. -/
def aggregateDetail (sheets : List (List DetailRecord)) : List DetailRecord :=
  List.insertionSort detailLe sheets.flatten

/-- `load_stress_bystrat`: normalize every sheet of the workbook (a failure
on any sheet aborts the whole load), concatenate, and sort. -/
def load_stress_bystrat (wb : List (String × Sheet)) : Except String (List DetailRecord) := do
  let recs ← wb.mapM (fun ks => normalizeDetailSheet ks.1 ks.2)
  return aggregateDetail recs

/-- The by-strategy detail filter `df_detail` (src/app.py lines 316-321):
rows of the loaded dataset matching the selected date, portfolio and
scenario, excluding the row named "Total". -/
def dfDetail (data : List DetailRecord) (d : Int) (p sc : String) : List DetailRecord :=
  data.filter (fun r =>
    decide (r.date = some d) && decide (r.portfolio = p) && decide (r.scenarioName = sc)
      && decide (r.name ≠ Cell.str "Total"))

/-! ### Round-trip lemmas for the compound key (claim C8) -/

theorem splitFirst_append {d : List Char} :
    ∀ {s p q : List Char}, splitFirst d s = some (p, q) → p ++ (d ++ q) = s := by
  intro s
  induction s with
  | nil => intro p q h; simp [splitFirst] at h
  | cons c cs ih =>
    intro p q h
    by_cases hp : d.isPrefixOf (c :: cs)
    · rw [splitFirst, if_pos hp] at h
      obtain ⟨t, ht⟩ := List.isPrefixOf_iff_prefix.mp hp
      injection h with h
      obtain ⟨rfl, rfl⟩ := Prod.mk.injEq .. ▸ (Prod.mk.inj h)
      rw [← ht, List.drop_left]
      simp
    · rw [splitFirst, if_neg hp] at h
      cases hsp : splitFirst d cs with
      | none => rw [hsp] at h; exact absurd h (by simp)
      | some pq =>
        rw [hsp] at h
        injection h with h
        obtain ⟨h1, h2⟩ := Prod.mk.inj h
        have := ih (p := pq.1) (q := pq.2) (by rw [hsp])
        subst h1
        subst h2
        simpa using congrArg (c :: ·) this

theorem splitFirst_isSome_of_hasDelim :
    ∀ {s : List Char}, stressDelim <:+: s → (splitFirst stressDelim s).isSome := by
  intro s
  induction s with
  | nil => intro h; exact absurd (List.eq_nil_of_infix_nil h) (by decide)
  | cons c cs ih =>
    intro h
    by_cases hp : stressDelim.isPrefixOf (c :: cs)
    · rw [splitFirst, if_pos hp]; rfl
    · have hcs : stressDelim <:+: cs := by
        rcases List.infix_cons_iff.mp h with h1 | h2
        · exact absurd ( List.isPrefixOf_iff_prefix.mpr h1) hp
        · exact h2
      have := ih hcs
      rw [splitFirst, if_neg hp]
      cases hsp : splitFirst stressDelim cs with
      | none => rw [hsp] at this; exact absurd this (by simp)
      | some pq => rfl

/-- Claim C8 (confirmed): for every compound sheet key containing the
two-character delimiter, splitting the key at the first occurrence of the
delimiter into portfolio and scenario parts and rejoining the parts with the
delimiter recovers exactly the original key. -/
theorem c8_split_rejoin_roundtrip (key : List Char) (h : stressDelim <:+: key) :
    (parseSheetKeyL key).1 ++ stressDelim ++ (parseSheetKeyL key).2 = key := by
  obtain ⟨pq, hpq⟩ := Option.isSome_iff_exists.mp (splitFirst_isSome_of_hasDelim h)
  rw [parseSheetKeyL, hpq]
  simpa [List.append_assoc] using splitFirst_append (p := pq.1) (q := pq.2) (by rw [hpq])

/-- Witness for C8 at the concrete compound key "PF&&SC". -/
theorem c8_split_rejoin_roundtrip_witness :
    (parseSheetKeyL "PF&&SC".toList).1 ++ stressDelim ++ (parseSheetKeyL "PF&&SC".toList).2
      = "PF&&SC".toList :=
  c8_split_rejoin_roundtrip _ (by decide)

/-! ### Claim C1: error on missing date/value header in detail mode -/

/-- A sheet whose headers match neither the "Date" nor the "Stress PnL"
pattern. -/
def c1sheet : Sheet :=
  { headers := ["Strategy", "Value"]
    rows := [[Cell.str "Alpha", Cell.num 4]] }

/-- Claim C1 (counterexample): on a concrete sheet with no date-like and no
value-like header, detail extraction fails with the generic pandas
index-out-of-bounds message, which contains neither the sheet key nor either
missing header pattern — not a descriptive, sheet-identifying error. -/
theorem c1_counterexample :
    normalizeDetailSheet "PF1&&SC1" c1sheet = Except.error pandasIndexError
    ∧ strContains "PF1&&SC1" pandasIndexError = false
    ∧ strContains "Date" pandasIndexError = false
    ∧ strContains "Stress PnL" pandasIndexError = false :=
  ⟨rfl, by decide, by decide, by decide⟩

/-- Claim C1 (amended): in detail extraction mode, a sheet that has no
column whose header contains "Date" (case-insensitive) or no column whose
header contains "Stress PnL" (case-insensitive) makes the normalizer raise
an error rather than emit a silent empty result — but the error is the one
generic index-out-of-bounds failure, the same fixed message for every sheet
and for either missing pattern, identifying neither. -/
theorem c1_missing_column_error (key : String) (s : Sheet)
    (h : findColCI s.headers "Date" = none ∨ findColCI s.headers "Stress PnL" = none) :
    normalizeDetailSheet key s = Except.error pandasIndexError := by
  rcases h with h | h
  · rw [normalizeDetailSheet, h]
  · cases hd : findColCI s.headers "Date" with
    | none => rw [normalizeDetailSheet, hd]
    | some i => rw [normalizeDetailSheet, hd, h]

/-- Witness for C1 at the concrete sheet `c1sheet`. -/
theorem c1_missing_column_error_witness :
    (findColCI c1sheet.headers "Date" = none
      ∨ findColCI c1sheet.headers "Stress PnL" = none)
    ∧ normalizeDetailSheet "PF1&&SC1" c1sheet = Except.error pandasIndexError :=
  ⟨Or.inl (by decide), c1_missing_column_error "PF1&&SC1" c1sheet (Or.inl (by decide))⟩

/-! ### Claim C3: exclusion of the "Total" row -/

/-- A well-formed by-strategy sheet containing a "Total" row and one
strategy row. -/
def c3sheet : Sheet :=
  { headers := ["Strategy", "Date", "Stress PnL"]
    rows := [[Cell.str "Total", Cell.date 1, Cell.num 10],
             [Cell.str "Alpha", Cell.date 1, Cell.num 4]] }

/-- The record set `load_stress_bystrat` emits for `c3sheet`. -/
def c3records : List DetailRecord :=
  [{ name := Cell.str "Total", date := some 1, stressPnL := Cell.num 10,
     portfolio := "P", scenarioName := "S" },
   { name := Cell.str "Alpha", date := some 1, stressPnL := Cell.num 4,
     portfolio := "P", scenarioName := "S" }]

/-- Claim C3 (counterexample): the normalized detail record set emitted by
the loader for a concrete sheet with a "Total" row DOES contain a record
named "Total" — the loader performs no such exclusion. -/
theorem c3_counterexample :
    normalizeDetailSheet "P&&S" c3sheet = Except.ok c3records
    ∧ Cell.str "Total" ∈ c3records.map DetailRecord.name :=
  ⟨rfl, by decide⟩

/-- Claim C3 (amended): the loader retains rows named "Total"; the exclusion
happens in the downstream per-selection filter `df_detail`, whose output
never contains a record named "Total" (and on the concrete loaded records
keeps exactly the non-Total row). -/
theorem c3_total_excluded_downstream :
    (∀ (data : List DetailRecord) (d : Int) (p sc : String) (r : DetailRecord),
       r ∈ dfDetail data d p sc → r.name ≠ Cell.str "Total")
    ∧ dfDetail c3records 1 "P" "S" =
        [{ name := Cell.str "Alpha", date := some 1, stressPnL := Cell.num 4,
           portfolio := "P", scenarioName := "S" }] := by
  constructor
  · intro data d p sc r hr
    have h := (List.mem_filter.mp hr).2
    have h4 := (Bool.and_eq_true _ _ |>.mp h).2
    exact of_decide_eq_true h4
  · decide

/-- Witness for C3: the amended exclusion applied to a concrete member of a
concrete filtered record set. -/
theorem c3_total_excluded_downstream_witness :
    ({ name := Cell.str "Alpha", date := some 1, stressPnL := Cell.num 4,
       portfolio := "P", scenarioName := "S" } : DetailRecord).name ≠ Cell.str "Total" :=
  c3_total_excluded_downstream.1 c3records 1 "P" "S" _ (by decide)

/-! ### Claim C4: aggregation and sorting of the detail dataset -/

/-- Two records agreeing on the whole sort key (date, portfolio, scenario,
name) but with different stress values. -/
def c4r1 : DetailRecord :=
  { name := Cell.str "A", date := some 1, stressPnL := Cell.num 1,
    portfolio := "P", scenarioName := "S" }

/-- Same key as `c4r1`, different value. -/
def c4r2 : DetailRecord :=
  { name := Cell.str "A", date := some 1, stressPnL := Cell.num 2,
    portfolio := "P", scenarioName := "S" }

/-- Claim C4 (counterexample): reading the same two singleton sheets in the
two possible orders yields different row orders in the aggregated detail
output (the two records share the whole sort key), so the output order is
not independent of the order in which source sheets were read. -/
theorem c4_counterexample :
    aggregateDetail [[c4r1], [c4r2]] ≠ aggregateDetail [[c4r2], [c4r1]] := by
  have h12 : detailLe c4r1 c4r2 := le_of_eq rfl
  have h21 : detailLe c4r2 c4r1 := le_of_eq rfl
  have e1 : aggregateDetail [[c4r1], [c4r2]] = [c4r1, c4r2] := by
    simp [aggregateDetail, List.insertionSort, List.orderedInsert, h12]
  have e2 : aggregateDetail [[c4r2], [c4r1]] = [c4r2, c4r1] := by
    simp [aggregateDetail, List.insertionSort, List.orderedInsert, h21]
  rw [e1, e2]
  decide

/-- Claim C4 (amended): the aggregated detail output is a permutation of the
concatenation of the per-sheet record sets (every input row preserved, no
deduplication) and is sorted ascending by the key (date — missing dates
last —, portfolio identifier, scenario identifier, name); rows sharing an
identical full key keep their input order, so the row order is deterministic
only up to such ties and is not independent of source sheet order. -/
theorem c4_aggregate_sorted (sheets : List (List DetailRecord)) :
    (aggregateDetail sheets).Perm sheets.flatten
    ∧ List.Sorted detailLe (aggregateDetail sheets) :=
  ⟨List.perm_insertionSort _ _, List.sorted_insertionSort _ _⟩

/-! ### Total-row extraction (src/app.py `load_stress_data`, lines 37-49) -/

/-- The column rename `{"Stress PnL": "StressPnL"}` applied to the header
row; a header already reading "StressPnL" is left as is. -/
def renameStressColumns (headers : List String) : List String :=
  headers.map (fun h => if h = "Stress PnL" then "StressPnL" else h)

/-- The message of the pandas `KeyError` raised by looking up a missing
column label; it names the column, never the sheet. -/
def keyErrorMsg (col : String) : String := "KeyError: " ++ col

/-- Exact (case-sensitive) column lookup, raising the pandas `KeyError` when
the label is absent. -/
def getColIdx (headers : List String) (col : String) : Except String Nat :=
  match headers.findIdx? (fun h => decide (h = col)) with
  | some i => .ok i
  | none => .error (keyErrorMsg col)

/-- An aggregate stress record, one per "Total" row:
columns ["Date", "Scenario", "StressPnL", "Portfolio", "ScenarioName"]. -/
structure StressRecord where
  date : Int
  scenario : Cell
  stressPnL : Cell
  portfolio : String
  scenarioName : String
deriving DecidableEq

/-- `df[df.iloc[:, 0] == "Total"]`: the rows whose first column equals the
literal "Total". -/
def totalRows (s : Sheet) : List (List Cell) :=
  s.rows.filter (fun row => decide (row.getD 0 Cell.empty = Cell.str "Total"))

/-- Per-sheet body of `load_stress_data`: filter to "Total" rows, rename the
value column, look up "Date" (exact), strictly parse the dates of the kept
rows, look up "Scenario" and "StressPnL" (exact), and emit one record per
"Total" row tagged with the split compound key.  No header inference and no
date coercion happen; each failure is a generic column or parse error. -/
def load_stress_sheet (key : String) (s : Sheet) : Except String (List StressRecord) := do
  let headers := renameStressColumns s.headers
  let rows := totalRows s
  let dateIdx ← getColIdx headers "Date"
  let dates ← rows.mapM (fun row => strictParseDate (row.getD dateIdx Cell.empty))
  let scenIdx ← getColIdx headers "Scenario"
  let pnlIdx ← getColIdx headers "StressPnL"
  return (rows.zip dates).map (fun rd =>
    { date := rd.2
      scenario := rd.1.getD scenIdx Cell.empty
      stressPnL := rd.1.getD pnlIdx Cell.empty
      portfolio := (parseSheetKey key).1
      scenarioName := (parseSheetKey key).2 })

/-- `load_stress_data`: run the per-sheet extraction over the workbook — the
first failing sheet aborts the entire load — and concatenate. -/
def load_stress_data (wb : List (String × Sheet)) : Except String (List StressRecord) := do
  let recs ← wb.mapM (fun ks => load_stress_sheet ks.1 ks.2)
  return recs.flatten

/-! ### Claim C10: strictness of total-row extraction -/

/-- A sheet whose value column is already named "StressPnL" (no "Stress
PnL" header anywhere). -/
def c10alias : Sheet :=
  { headers := ["Name", "Date", "Scenario", "StressPnL"]
    rows := [[Cell.str "Total", Cell.date 5, Cell.str "SC", Cell.num 7]] }

/-- A sheet whose date header is lowercase "date". -/
def c10lcDate : Sheet :=
  { headers := ["Name", "date", "Scenario", "Stress PnL"]
    rows := [[Cell.str "Total", Cell.date 3, Cell.str "SC", Cell.num 7]] }

/-- A sheet whose "Total" row holds an unparsable date. -/
def c10badDate : Sheet :=
  { headers := ["Name", "Date", "Scenario", "Stress PnL"]
    rows := [[Cell.str "Total", Cell.str "31/02/2024", Cell.str "SC", Cell.num 7]] }

/-- A well-formed stress sheet. -/
def c10good : Sheet :=
  { headers := ["Name", "Date", "Scenario", "Stress PnL"]
    rows := [[Cell.str "Total", Cell.date 3, Cell.str "SC", Cell.num 7]] }

/-- Claim C10 (counterexample): a sheet with no column named literally
"Stress PnL" — its value column is already named "StressPnL" — loads
successfully, because the rename aliases "Stress PnL" to "StressPnL" and
only the latter is then required; so total-row extraction does not require a
column named literally "Stress PnL". -/
theorem c10_counterexample :
    load_stress_data [("P&&S", c10alias)] =
      Except.ok [{ date := 5, scenario := Cell.str "SC", stressPnL := Cell.num 7,
                   portfolio := "P", scenarioName := "S" }] := rfl

/-- Claim C10 (amended): total-row extraction performs no column inference
and no date coercion: it requires columns named literally "Date" and
"Scenario" (exact, case-sensitive) and a value column named either "Stress
PnL" or "StressPnL" (the rename maps the former to the latter, which is
what is then required).  A sheet whose date header is lowercase "date"
makes the entire load fail with a generic lookup error that names the
column, not the offending sheet — while detail extraction succeeds on that
same sheet by case-insensitive inference; a sheet whose Total-row date is
unparsable makes the entire load fail with a generic parse error — while
detail extraction coerces that same date to missing; a well-formed sheet
loads. -/
theorem c10_total_loader_strict :
    load_stress_data [("P&&S", c10lcDate)] = Except.error (keyErrorMsg "Date")
    ∧ strContains "P&&S" (keyErrorMsg "Date") = false
    ∧ load_stress_data [("P&&S", c10badDate)] = Except.error dateParseError
    ∧ strContains "P&&S" dateParseError = false
    ∧ load_stress_data [("P&&S", c10good)] =
        Except.ok [{ date := 3, scenario := Cell.str "SC", stressPnL := Cell.num 7,
                     portfolio := "P", scenarioName := "S" }]
    ∧ normalizeDetailSheet "P&&S" c10lcDate =
        Except.ok [{ name := Cell.str "Total", date := some 3, stressPnL := Cell.num 7,
                     portfolio := "P", scenarioName := "S" }]
    ∧ normalizeDetailSheet "P&&S" c10badDate =
        Except.ok [{ name := Cell.str "Total", date := none, stressPnL := Cell.num 7,
                     portfolio := "P", scenarioName := "S" }] :=
  ⟨rfl, by decide, rfl, by decide, rfl, rfl, rfl⟩

/-! ### Correlation sheet loading (src/app.py `load_corr_data`, lines 29-34) -/

/-- Row order of `sort_index()`: ascending by the date index. -/
def corrRowLe (a b : Int × List ℚ) : Prop := a.1 ≤ b.1

instance : DecidableRel corrRowLe := fun a b => inferInstanceAs (Decidable (a.1 ≤ b.1))

instance : IsTotal (Int × List ℚ) corrRowLe := ⟨fun a b => le_total a.1 b.1⟩

instance : IsTrans (Int × List ℚ) corrRowLe := ⟨fun _ _ _ h1 h2 => le_trans h1 h2⟩

/-- `load_corr_data`: a correlation sheet row is its (already parsed) date
index paired with the series values of the remaining columns; the loader
sets the first column as index and sorts by it.  Nothing deduplicates the
index. -/
def load_corr_data (rows : List (Int × List ℚ)) : List (Int × List ℚ) :=
  List.insertionSort corrRowLe rows

/-! ### Claim C9: the loaded correlation index -/

/-- Claim C9 (counterexample): a correlation sheet with two rows carrying
the same date loads to a frame whose timestamps are not unique — the loader
sorts but never deduplicates. -/
theorem c9_counterexample :
    ¬ ((load_corr_data [(1, [0]), (1, [1])]).map Prod.fst).Nodup := by
  decide

/-- Claim C9 (amended): for every correlation sheet loaded, the resulting
timestamps are sorted ascending; they are unique only when the source
sheet's dates are themselves unique (the loader enforces order, not
uniqueness). -/
theorem c9_sorted_index (rows : List (Int × List ℚ)) :
    List.Sorted (· ≤ ·) ((load_corr_data rows).map Prod.fst)
    ∧ ((rows.map Prod.fst).Nodup → ((load_corr_data rows).map Prod.fst).Nodup) := by
  constructor
  · have h := List.sorted_insertionSort corrRowLe rows
    rw [List.Sorted, List.pairwise_map]
    exact h.imp (fun hab => hab)
  · intro hn
    have hp : (load_corr_data rows).Perm rows := List.perm_insertionSort _ _
    exact ((hp.map Prod.fst).nodup_iff).mpr hn

/-- Witness for C9 at a concrete two-row sheet with distinct dates. -/
theorem c9_sorted_index_witness :
    List.Sorted (· ≤ ·) ((load_corr_data [(2, []), (1, [])]).map Prod.fst)
    ∧ ((load_corr_data [(2, []), (1, [])]).map Prod.fst).Nodup :=
  ⟨(c9_sorted_index [(2, []), (1, [])]).1,
   (c9_sorted_index [(2, []), (1, [])]).2 (by decide)⟩

/-! ### Comparison analysis (src/app.py lines 429-444) -/

/-- Numeric view of a cell: `pd.to_numeric(x, errors="coerce").fillna(0)`.
The stress workbook's value column holds numbers (spec section 6), for which
this is the identity. -/
def cellQ : Cell → ℚ
  | .num q => q
  | _ => 0

/-- `Series.quantile(q)` with the default linear interpolation between order
statistics (`Series.median()` is the same at q = 1/2): sort the values, take
position q * (n - 1), and interpolate linearly between the two neighbouring
order statistics. -/
def quantileLinear (xs : List ℚ) (q : ℚ) : ℚ :=
  let s := List.insertionSort (· ≤ ·) xs
  match s with
  | [] => 0
  | _ :: _ =>
    let n : ℕ := s.length
    let pos : ℚ := q * ((n : ℚ) - 1)
    let i : ℕ := (⌊pos⌋).toNat
    let g : ℚ := pos - (⌊pos⌋ : ℚ)
    let lo : ℚ := s.getD i 0
    let hi : ℚ := s.getD (min (i + 1) (n - 1)) 0
    lo + g * (hi - lo)

/-- The group keys of `groupby("ScenarioName")` (sorted ascending, the
groupby default). -/
def scenarioKeys (df : List StressRecord) : List String :=
  List.insertionSort (· ≤ ·) (df.map (fun r => r.scenarioName)).dedup

/-- One row of the bucket aggregation. -/
structure BucketStat where
  scenarioName : String
  bucket_median : ℚ
  q25 : ℚ
  q75 : ℚ
deriving DecidableEq

/-- `df_b.groupby("ScenarioName")["StressPnL"].agg(median, q25, q75)`:
median, 25th and 75th percentile of the stress value within each scenario
group. -/
def bucketStats (dfb : List StressRecord) : List BucketStat :=
  (scenarioKeys dfb).map (fun k =>
    let vs := (dfb.filter (fun r => decide (r.scenarioName = k))).map
      (fun r => cellQ r.stressPnL)
    { scenarioName := k
      bucket_median := quantileLinear vs (1/2)
      q25 := quantileLinear vs (1/4)
      q75 := quantileLinear vs (3/4) })

/-- One row of the joined comparison view `plot_df`. -/
structure PlotRow where
  date : Int
  scenario : Cell
  stressPnL : Cell
  portfolio : String
  scenarioName : String
  bucket_median : ℚ
  q25 : ℚ
  q75 : ℚ

/-- `df_p.merge(bucket, on="ScenarioName")`: the default inner join — each
subject row is paired with each bucket row of the same scenario identifier,
and rows without a partner on the other side are dropped. -/
def mergeScenario (dfp : List StressRecord) (bucket : List BucketStat) : List PlotRow :=
  dfp.flatMap (fun r =>
    (bucket.filter (fun b => decide (b.scenarioName = r.scenarioName))).map (fun b =>
      { date := r.date, scenario := r.scenario, stressPnL := r.stressPnL
        portfolio := r.portfolio, scenarioName := r.scenarioName
        bucket_median := b.bucket_median, q25 := b.q25, q75 := b.q75 }))

/-- The comparison view: partition into subject (`portfolio == selected`)
and bucket (`portfolio != selected`) rows, aggregate the bucket per
scenario, and inner-join the subject rows to the aggregates. -/
def plot_df (df : List StressRecord) (selected : String) : List PlotRow :=
  mergeScenario (df.filter (fun r => decide (r.portfolio = selected)))
    (bucketStats (df.filter (fun r => decide (r.portfolio ≠ selected))))

/-! ### Claim C5: the join is inner on the scenario identifier -/

/-- Records for one date: the subject portfolio "P" covers scenarios "X" and
"Y"; the only other portfolio "Q" covers just "X". -/
def c5df : List StressRecord :=
  [{ date := 1, scenario := Cell.empty, stressPnL := Cell.num 10,
     portfolio := "P", scenarioName := "X" },
   { date := 1, scenario := Cell.empty, stressPnL := Cell.num 11,
     portfolio := "P", scenarioName := "Y" },
   { date := 1, scenario := Cell.empty, stressPnL := Cell.num 12,
     portfolio := "Q", scenarioName := "X" }]

/-- Claim C5 (confirmed): the joined output contains a scenario identifier
exactly when it occurs both among the subject rows and among the bucket
statistics — scenarios present on only one side are dropped (inner join) —
and on the concrete dataset with subject scenarios X, Y and a bucket
covering only X, the joined output has exactly one row. -/
theorem c5_inner_join :
    (∀ (dfp : List StressRecord) (bucket : List BucketStat) (s : String),
       s ∈ (mergeScenario dfp bucket).map PlotRow.scenarioName ↔
         s ∈ dfp.map StressRecord.scenarioName ∧ s ∈ bucket.map BucketStat.scenarioName)
    ∧ (plot_df c5df "P").length = 1 := by
  constructor
  · intro dfp bucket s
    constructor
    · intro h
      obtain ⟨pr, hpr, rfl⟩ := List.mem_map.mp h
      obtain ⟨r, hr, hb⟩ := List.mem_flatMap.mp hpr
      obtain ⟨b, hbf, rfl⟩ := List.mem_map.mp hb
      have hbs := List.mem_filter.mp hbf
      refine ⟨List.mem_map.mpr ⟨r, hr, rfl⟩, List.mem_map.mpr ⟨b, hbs.1, ?_⟩⟩
      exact of_decide_eq_true hbs.2
    · intro h
      obtain ⟨r, hr, rfl⟩ := List.mem_map.mp h.1
      obtain ⟨b, hb, hbs⟩ := List.mem_map.mp h.2
      refine List.mem_map.mpr ⟨_, List.mem_flatMap.mpr ⟨r, hr, List.mem_map.mpr
        ⟨b, List.mem_filter.mpr ⟨hb, decide_eq_true hbs⟩, rfl⟩⟩, rfl⟩
  · rfl

/-! ### Claim C6: percentile computation -/

/-- A bucket of four records in one scenario group with stress values 10,
20, 30, 40. -/
def c6group : List StressRecord :=
  [{ date := 1, scenario := Cell.empty, stressPnL := Cell.num 10,
     portfolio := "Q1", scenarioName := "X" },
   { date := 1, scenario := Cell.empty, stressPnL := Cell.num 20,
     portfolio := "Q2", scenarioName := "X" },
   { date := 1, scenario := Cell.empty, stressPnL := Cell.num 30,
     portfolio := "Q3", scenarioName := "X" },
   { date := 1, scenario := Cell.empty, stressPnL := Cell.num 40,
     portfolio := "Q4", scenarioName := "X" }]

/-- Claim C6 (confirmed): percentiles interpolate linearly between order
statistics — for the values 10, 20, 30, 40 the median is 25, the 25th
percentile is 17.5 and the 75th percentile is 32.5 — and the per-group
bucket aggregation yields exactly these three statistics for the four-record
group. -/
theorem c6_percentiles_linear :
    quantileLinear [10, 20, 30, 40] (1/2) = 25
    ∧ quantileLinear [10, 20, 30, 40] (1/4) = 35/2
    ∧ quantileLinear [10, 20, 30, 40] (3/4) = 65/2
    ∧ bucketStats c6group =
        [{ scenarioName := "X", bucket_median := 25, q25 := 35/2, q75 := 65/2 }] := by
  have h50 : quantileLinear [10, 20, 30, 40] (1/2) = 25 := by
    norm_num [quantileLinear, List.insertionSort, List.orderedInsert]
  have h25 : quantileLinear [10, 20, 30, 40] (1/4) = 35/2 := by
    norm_num [quantileLinear, List.insertionSort, List.orderedInsert]
  have h75 : quantileLinear [10, 20, 30, 40] (3/4) = 65/2 := by
    norm_num [quantileLinear, List.insertionSort, List.orderedInsert,
      show Int.toNat 2 = 2 from rfl]
  have hkeys : scenarioKeys c6group = ["X"] := by decide
  refine ⟨h50, h25, h75, ?_⟩
  rw [bucketStats, hkeys]
  simp only [List.map, List.filter, cellQ]
  rw [h50, h25, h75]

/-! ### Treemap construction (src/app.py lines 327-364) -/

/-- Elementwise absolute maximum `np.max(np.abs(vals))` (the code path runs
only on a non-empty selection, where the fold agrees with the numpy
reduction). -/
def maxAbsVal (vals : List ℚ) : ℚ := (vals.map (fun v => |v|)).foldr max 0

/-- `np.max(np.abs(vals)) if np.max(np.abs(vals)) != 0 else 1`: the
division-by-zero guard of the color normalization. -/
def maxAbsOr1 (vals : List ℚ) : ℚ := if maxAbsVal vals = 0 then 1 else maxAbsVal vals

/-- An rgba color string "rgba(neg,pos,0,0.8)" modelled as its two computed
channel values. -/
structure Rgba where
  negChannel : Int
  posChannel : Int
deriving DecidableEq

/-- One color of the second color computation (lines 353-356):
channels `int(255 * abs(min(0, v) / max_abs))` and
`int(255 * max(0, v) / max_abs)`; `int` truncates, which on these
non-negative operands is the floor. -/
def rgbaColor (m v : ℚ) : Rgba :=
  { negChannel := ⌊255 * |min 0 v / m|⌋
    posChannel := ⌊255 * (max 0 v / m)⌋ }

/-- The second color computation: one rgba color per raw stress value. -/
def colorsSecond (vals : List ℚ) : List Rgba :=
  vals.map (rgbaColor (maxAbsOr1 vals))

/-- `np.clip(x, 0, 255)`. -/
def clip255 (x : ℚ) : ℚ := min (max x 0) 255

/-- One color of the first color computation (lines 330-335), identical to
the second up to clipping before truncation. -/
def rgbaColorClipped (m v : ℚ) : Rgba :=
  { negChannel := ⌊clip255 (255 * |min 0 v / m|)⌋
    posChannel := ⌊clip255 (255 * (max 0 v / m))⌋ }

/-- The first color computation (on `to_numeric(...).fillna(0)` values,
which is `cellQ` of the raw cells). -/
def colorsFirst (vals : List ℚ) : List Rgba :=
  vals.map (rgbaColorClipped (maxAbsOr1 vals))

/-- An entry of the color list finally attached to the treemap marker:
the literal "white" for the root, a raw numeric value for a leaf. -/
inductive ColorVal where
  | white
  | val (q : ℚ)
deriving DecidableEq

/-- The colors actually attached to the rendered treemap (line 363):
`colors = ["white"] + df_tm["StressPnL"].tolist()` — the root color followed
by each leaf's raw signed stress value (both earlier rgba computations are
overwritten by this assignment). -/
def markerColors (vals : List ℚ) : List ColorVal :=
  ColorVal.white :: vals.map ColorVal.val

/-- Leaf sizing `df_tm["StressPnL"].abs().clip(lower=0.01)`. -/
def leafSize (v : ℚ) : ℚ := max |v| (1/100)

/-- The value list attached to the treemap (line 362):
`values = [df_tm["size"].sum()] + df_tm["size"].tolist()` — the synthetic
root's weight (the sum of all leaf weights) followed by the leaf weights. -/
def treemapValues (vals : List ℚ) : List ℚ :=
  (vals.map leafSize).sum :: vals.map leafSize

/-! ### Claim C2: the colors attached to the treemap -/

/-- Claim C2 (counterexample): on the input values 5 and -3 (max_abs = 5)
the colors attached to the rendered treemap are the raw values 5 and -3,
not the normalized intensities 1 and -3/5 the claim asserts. -/
theorem c2_counterexample :
    markerColors [5, -3] ≠ [ColorVal.white, ColorVal.val 1, ColorVal.val (-3/5)]
    ∧ markerColors [5, -3] = [ColorVal.white, ColorVal.val 5, ColorVal.val (-3)] := by
  constructor
  · intro h
    rw [markerColors] at h
    simp only [List.map, List.cons.injEq, ColorVal.val.injEq] at h
    exact absurd h.2.1 (by norm_num)
  · rfl

/-- Claim C2 (amended): the Hierarchy Builder computes normalized signed
color intensities — the second rgba computation scales each value by 255 /
max_abs, giving channels (0, 255) for value 5 and (153, 0) for value -3 —
but that list is discarded: the colors actually attached to the rendered
hierarchy are the literal root color "white" followed by each leaf's raw
signed stress value (5 and -3 on the example input). -/
theorem c2_treemap_colors :
    (∀ vals : List ℚ, markerColors vals = ColorVal.white :: vals.map ColorVal.val)
    ∧ colorsSecond [5, -3] =
        [{ negChannel := 0, posChannel := 255 }, { negChannel := 153, posChannel := 0 }]
    ∧ markerColors [5, -3] = [ColorVal.white, ColorVal.val 5, ColorVal.val (-3)] := by
  refine ⟨fun vals => rfl, ?_, rfl⟩
  have habs : |(3 : ℚ)/5| = 3/5 := by norm_num
  norm_num [colorsSecond, rgbaColor, maxAbsOr1, maxAbsVal, habs]

/-! ### Claim C7: treemap weights -/

/-- Claim C7 (confirmed): the value list attached to the treemap is the
synthetic root weight — the sum of all leaf weights — followed by the leaf
weights, each leaf weighing max(|value|, 0.01); on the input values 5 and
-3 the leaf weights are 5 and 3 and the root weight is 8. -/
theorem c7_treemap_weights :
    (∀ vals : List ℚ,
       treemapValues vals =
         (vals.map (fun v => max |v| (1/100))).sum :: vals.map (fun v => max |v| (1/100)))
    ∧ treemapValues [5, -3] = [8, 5, 3] := by
  refine ⟨fun vals => rfl, ?_⟩
  norm_num [treemapValues, leafSize]

end PortfolioAnalysis
